import Mathlib

/-!
Verification of the brake-prediction engine (Formula 1 brake digital twin).

The repository's prediction core is embedded shallowly over exact rational
arithmetic (`ℚ`): machine `number` values become rationals, `Math.PI` becomes
the exact rational value of the IEEE-754 double `Math.PI`, `Math.round`
becomes `⌊x + 1/2⌋`, and the transcendental primitives `Math.exp` / `Math.tanh`
used by the learned sequence models are abstracted into a `Numerics` record of
rational-valued oracles (their values never matter for the properties below).
Class fields that are mutated (`HybridDigitalTwin.adaptiveWeights`,
`calibrationFactor`) become an explicit `TwinState` threaded through the
functions that read or write them.
-/

namespace BrakeF1

/-- Exact rational value of the IEEE-754 double constant `Math.PI`
(`884279719003555 * 2 ^ (-48)`). -/
def piJS : ℚ := 884279719003555 / 281474976710656

/-- JavaScript `Math.round`: round half toward positive infinity. -/
def jround (x : ℚ) : ℚ := (⌊x + 1/2⌋ : ℤ)

/-- Mirrors `BrakePhysicsInputs` from `PhysicsModel.ts`. -/
structure BrakePhysicsInputs where
  wheelSpeed : ℚ
  brakePressure : ℚ
  ambientTemp : ℚ
  padThickness : ℚ
  discMass : ℚ
  padArea : ℚ
  timeStep : ℚ
deriving DecidableEq

/-- Mirrors `BrakePhysicsOutputs` from `PhysicsModel.ts`. -/
structure BrakePhysicsOutputs where
  temperature : ℚ
  wearRate : ℚ
  heatGeneration : ℚ
  coolingRate : ℚ
  predictedLapsRemaining : ℚ
  thermalStress : ℚ
deriving DecidableEq

/-- `PhysicsModel.FRICTION_COEFFICIENT`. -/
def PhysicsModel.FRICTION_COEFFICIENT : ℚ := 2/5

/-- `PhysicsModel.SPECIFIC_HEAT_CAPACITY` (J/kg·K). -/
def PhysicsModel.SPECIFIC_HEAT_CAPACITY : ℚ := 1200

/-- `PhysicsModel.CONVECTION_COEFFICIENT` (W/m²·K). -/
def PhysicsModel.CONVECTION_COEFFICIENT : ℚ := 25

/-- `PhysicsModel.WEAR_COEFFICIENT` (`2.5e-9`). -/
def PhysicsModel.WEAR_COEFFICIENT : ℚ := 25 / 10000000000

/-- `PhysicsModel.DISC_RADIUS` (m). -/
def PhysicsModel.DISC_RADIUS : ℚ := 3/20

/-- `PhysicsModel.DISC_MASS` (kg). -/
def PhysicsModel.DISC_MASS : ℚ := 17/2

/-- `PhysicsModel.SURFACE_AREA` (m², effective cooling area). -/
def PhysicsModel.SURFACE_AREA : ℚ := 1/20

/-- Mirrors `PhysicsModel.predict` from `PhysicsModel.ts` line by line
(`previousTemp` defaults to 25 at call sites that omit it). -/
def PhysicsModel.predict (inputs : BrakePhysicsInputs) (previousTemp : ℚ) :
    BrakePhysicsOutputs :=
  let wheelSpeedRad := inputs.wheelSpeed * 2 * piJS / 60
  let pressurePa := inputs.brakePressure * 100000
  let padAreaM2 := inputs.padArea / 10000
  let normalForce := pressurePa * padAreaM2
  let frictionForce := PhysicsModel.FRICTION_COEFFICIENT * normalForce
  let linearVelocity := wheelSpeedRad * PhysicsModel.DISC_RADIUS
  let powerDissipated := frictionForce * linearVelocity
  let heatGeneration := powerDissipated
  let thermalCapacity := PhysicsModel.DISC_MASS * PhysicsModel.SPECIFIC_HEAT_CAPACITY
  let convectiveCooling := PhysicsModel.CONVECTION_COEFFICIENT *
    PhysicsModel.SURFACE_AREA * (previousTemp - inputs.ambientTemp)
  let netHeatRate := heatGeneration - convectiveCooling
  let tempIncrease := netHeatRate * inputs.timeStep / thermalCapacity
  let newTemperature := previousTemp + tempIncrease
  let slidingDistance := linearVelocity * inputs.timeStep
  let hardnessTemp := 150 - (newTemperature - 25) * (1/10)
  let wearVolume := PhysicsModel.WEAR_COEFFICIENT * normalForce * slidingDistance /
    max hardnessTemp 50
  let wearDepth := wearVolume / padAreaM2
  let wearRateMm := wearDepth * 1000 / inputs.timeStep
  let wearPerLap := max (1/1000) (wearRateMm * 90)
  let usableThickness := max 0 (inputs.padThickness - 2)
  let predictedLaps := max 0 (min 200 (usableThickness / wearPerLap))
  let thermalExpansion := (12/1000000) * (newTemperature - 25)
  let thermalStress := thermalExpansion * 200000000000 / 1000000
  let coolingRate := convectiveCooling
  { temperature := max inputs.ambientTemp newTemperature
    wearRate := max (1/1000) (min (1/10) wearPerLap)
    heatGeneration := max 0 (min 5000 heatGeneration)
    coolingRate := max 0 (min 1000 coolingRate)
    predictedLapsRemaining := jround predictedLaps
    thermalStress := max 0 thermalStress }

/-- Concrete operating state used to exhibit the missing 1200 °C upper clamp. -/
def c1cexInputs : BrakePhysicsInputs :=
  { wheelSpeed := 0, brakePressure := 0, ambientTemp := 25, padThickness := 10
    discMass := 17/2, padArea := 25, timeStep := 1 }

/-- C1 counterexample: at zero heat load but `previousTemperature = 1300`, the
returned temperature is 1299.84375 °C, strictly above the claimed 1200 °C cap:
`PhysicsModel.predict` clamps temperature only from below, never at 1200. -/
theorem c1_no_upper_clamp :
    ¬ (PhysicsModel.predict c1cexInputs 1300).temperature ≤ 1200 := by
  norm_num [PhysicsModel.predict, c1cexInputs, piJS,
    PhysicsModel.FRICTION_COEFFICIENT, PhysicsModel.SPECIFIC_HEAT_CAPACITY,
    PhysicsModel.CONVECTION_COEFFICIENT, PhysicsModel.DISC_RADIUS,
    PhysicsModel.DISC_MASS, PhysicsModel.SURFACE_AREA]

/-- C1 (amended): for every operating state and every previous temperature,
`PhysicsModel.predict` returns `temperature ≥ ambientTemp` (with no upper
clamp), `wearRate ∈ [0.001, 0.1]`, and `heatGeneration ∈ [0, 5000]`. -/
theorem c1_output_bounds (inputs : BrakePhysicsInputs) (previousTemp : ℚ) :
    inputs.ambientTemp ≤ (PhysicsModel.predict inputs previousTemp).temperature ∧
    1/1000 ≤ (PhysicsModel.predict inputs previousTemp).wearRate ∧
    (PhysicsModel.predict inputs previousTemp).wearRate ≤ 1/10 ∧
    0 ≤ (PhysicsModel.predict inputs previousTemp).heatGeneration ∧
    (PhysicsModel.predict inputs previousTemp).heatGeneration ≤ 5000 := by
  refine ⟨le_max_left _ _, le_max_left _ _, max_le (by norm_num) (min_le_left _ _),
    le_max_left _ _, max_le (by norm_num) (min_le_left _ _)⟩

/-- Mirrors the shared history-sequence shape (`LSTMInputSequence`,
`SequenceInput`, `TCNInputSequence`): parallel feature arrays. -/
structure SeqInput where
  wheelSpeed : List ℚ
  brakePressure : List ℚ
  ambientTemp : List ℚ
  padThickness : List ℚ
  timestamp : List ℚ
deriving DecidableEq

/-- Mirrors `LSTMPrediction`'s four primary fields (the shape consumed by
`HybridDigitalTwin`). -/
structure LSTMPredictionQ where
  temperature : ℚ
  wearRate : ℚ
  predictedLapsRemaining : ℚ
  confidence : ℚ
deriving DecidableEq

/-- Mirrors `HybridInputs` from `HybridDigitalTwin.ts`; the optional
`previousTemperature` becomes an `Option`. -/
structure HybridInputs where
  currentState : BrakePhysicsInputs
  historicalSequence : SeqInput
  previousTemperature : Option ℚ
deriving DecidableEq

/-- Mirrors `HybridPrediction` from `HybridDigitalTwin.ts`. -/
structure HybridPrediction where
  temperature : ℚ
  wearRate : ℚ
  predictedLapsRemaining : ℚ
  heatGeneration : ℚ
  coolingRate : ℚ
  thermalStress : ℚ
  confidence : ℚ
  physicsWeight : ℚ
  mlWeight : ℚ
  anomalyScore : ℚ
deriving DecidableEq

/-- The mutable fields of a `HybridDigitalTwin` instance
(`adaptiveWeights.physics`, `adaptiveWeights.lstm`, `calibrationFactor`),
made explicit as threaded state. -/
structure TwinState where
  physicsW : ℚ
  lstmW : ℚ
  calibrationFactor : ℚ
deriving DecidableEq

/-- The constructor-time state of a `HybridDigitalTwin`
(physics 0.6 / lstm 0.4, calibration factor 1). -/
def initialTwinState : TwinState := ⟨3/5, 2/5, 1⟩

/-- Outcome of the inner `this.lstmModel.predict` call inside
`HybridDigitalTwin.predict`: a value, an invalid (null / NaN-field) value, a
thrown exception, or a failure of the whole surrounding `try` block. -/
inductive LSTMOutcome where
  | ok (p : LSTMPredictionQ)
  | invalid
  | err
  | totalFailure
deriving DecidableEq

/-- Mirrors `HybridDigitalTwin.calculateAnomalyScore`. -/
def HybridDigitalTwin.calculateAnomalyScore (tempDiff wearDiff : ℚ) : ℚ :=
  let normalizedTempDiff := min (tempDiff / 200) 1
  let normalizedWearDiff := min (wearDiff / (1/10)) 1
  (normalizedTempDiff + normalizedWearDiff) / 2

/-- Mirrors `HybridDigitalTwin.adaptWeights` (reads the base adaptive weights
from the instance state, returns the blend weights for this call). -/
def HybridDigitalTwin.adaptWeights (st : TwinState)
    (anomalyScore lstmConfidence : ℚ) : ℚ × ℚ :=
  let physicsWeight0 := st.physicsW
  let lstmWeight := st.lstmW
  let physicsWeight1 :=
    if 3/10 < anomalyScore then physicsWeight0 + (1/5) * anomalyScore
    else physicsWeight0
  let physicsWeight2 :=
    if lstmConfidence < 7/10 then physicsWeight1 + (3/20) * (7/10 - lstmConfidence)
    else physicsWeight1
  let totalWeight := physicsWeight2 + lstmWeight
  let physics := min (4/5) (physicsWeight2 / totalWeight)
  (physics, 1 - physics)

/-- Mirrors `HybridDigitalTwin.combinePredictions` (weighted average of the
three primary fields, temperature scaled by the calibration factor). -/
def HybridDigitalTwin.combinePredictions (st : TwinState)
    (physics : BrakePhysicsOutputs) (lstm : LSTMPredictionQ)
    (weights : ℚ × ℚ) : ℚ × ℚ × ℚ :=
  let temperature := physics.temperature * weights.1 + lstm.temperature * weights.2
  let wearRate := physics.wearRate * weights.1 + lstm.wearRate * weights.2
  let predictedLapsRemaining := physics.predictedLapsRemaining * weights.1 +
    lstm.predictedLapsRemaining * weights.2
  (temperature * st.calibrationFactor, wearRate, predictedLapsRemaining)

/-- Mirrors `HybridDigitalTwin.applyDomainCorrections`: clamp temperature to
`[ambient, 1200]`, wear to `[0, 1]`, laps to `[0, padThickness/0.001]`, and
apply the cross-consistency rule only when `wearRate > 0.1` AND the clamped
laps value exceeds 50. -/
def HybridDigitalTwin.applyDomainCorrections (prediction : ℚ × ℚ × ℚ)
    (inputs : HybridInputs) : ℚ × ℚ × ℚ :=
  let temperature := max inputs.currentState.ambientTemp (min 1200 prediction.1)
  let wearRate := max 0 (min 1 prediction.2.1)
  let maxPossibleLaps := inputs.currentState.padThickness / (1/1000)
  let laps0 := max 0 (min maxPossibleLaps prediction.2.2)
  let laps :=
    if 1/10 < wearRate ∧ 50 < laps0 then
      min laps0 (inputs.currentState.padThickness / wearRate)
    else laps0
  (temperature, wearRate, laps)

/-- Mirrors `HybridDigitalTwin.calculateOverallConfidence`. -/
def HybridDigitalTwin.calculateOverallConfidence
    (lstmConfidence anomalyScore : ℚ) : ℚ :=
  let anomalyPenalty := max 0 (anomalyScore * (3/10))
  max (1/2) (min (19/20) (lstmConfidence - anomalyPenalty))

/-- The physics result read by `HybridDigitalTwin.predict` (the optional
previous temperature defaults to 25). -/
def HybridDigitalTwin.physicsOf (inputs : HybridInputs) : BrakePhysicsOutputs :=
  PhysicsModel.predict inputs.currentState (inputs.previousTemperature.getD 25)

/-- Body of `HybridDigitalTwin.predict` after the inner LSTM call has produced
(or been substituted by) a concrete `lstmResult`: anomaly score, weight
adaptation, weighted combination, domain corrections, overall confidence. -/
def HybridDigitalTwin.predictWith (st : TwinState) (inputs : HybridInputs)
    (lstmResult : LSTMPredictionQ) : HybridPrediction :=
  let physicsResult := HybridDigitalTwin.physicsOf inputs
  let tempDiff := |physicsResult.temperature - lstmResult.temperature|
  let wearDiff := |physicsResult.wearRate - lstmResult.wearRate|
  let anomalyScore := HybridDigitalTwin.calculateAnomalyScore tempDiff wearDiff
  let adaptedWeights := HybridDigitalTwin.adaptWeights st anomalyScore
    lstmResult.confidence
  let hybridPrediction := HybridDigitalTwin.combinePredictions st physicsResult
    lstmResult adaptedWeights
  let corrected := HybridDigitalTwin.applyDomainCorrections hybridPrediction inputs
  { temperature := corrected.1
    wearRate := corrected.2.1
    predictedLapsRemaining := corrected.2.2
    heatGeneration := physicsResult.heatGeneration
    coolingRate := physicsResult.coolingRate
    thermalStress := physicsResult.thermalStress
    confidence := HybridDigitalTwin.calculateOverallConfidence
      lstmResult.confidence anomalyScore
    physicsWeight := adaptedWeights.1
    mlWeight := adaptedWeights.2
    anomalyScore := anomalyScore }

/-- The outer `catch` block of `HybridDigitalTwin.predict`: fixed degraded
output carrying the physics fields with confidence 0.4, physics weight 1.0,
ml weight 0 and anomaly score 0.8. -/
def HybridDigitalTwin.fallbackPrediction (physicsResult : BrakePhysicsOutputs) :
    HybridPrediction :=
  { temperature := physicsResult.temperature
    wearRate := physicsResult.wearRate
    predictedLapsRemaining := physicsResult.predictedLapsRemaining
    heatGeneration := physicsResult.heatGeneration
    coolingRate := physicsResult.coolingRate
    thermalStress := physicsResult.thermalStress
    confidence := 2/5
    physicsWeight := 1
    mlWeight := 0
    anomalyScore := 4/5 }

/-- Mirrors `HybridDigitalTwin.predict`, with the learned model's outcome made
an explicit parameter (its weights are freshly randomized per instance, so any
`LSTMPredictionQ` value is realizable) and the instance state threaded
explicitly. An invalid LSTM value is substituted by the physics output at
confidence 0.3, a thrown LSTM error at confidence 0.2, and a failure of the
whole `try` block yields the fixed fallback. The method performs no assignment
to the instance fields, so the state is returned unchanged in every case. -/
def HybridDigitalTwin.predict (st : TwinState) (inputs : HybridInputs) :
    LSTMOutcome → HybridPrediction × TwinState
  | .ok p => (HybridDigitalTwin.predictWith st inputs p, st)
  | .invalid =>
    (HybridDigitalTwin.predictWith st inputs
      ⟨(HybridDigitalTwin.physicsOf inputs).temperature,
       (HybridDigitalTwin.physicsOf inputs).wearRate,
       (HybridDigitalTwin.physicsOf inputs).predictedLapsRemaining, 3/10⟩, st)
  | .err =>
    (HybridDigitalTwin.predictWith st inputs
      ⟨(HybridDigitalTwin.physicsOf inputs).temperature,
       (HybridDigitalTwin.physicsOf inputs).wearRate,
       (HybridDigitalTwin.physicsOf inputs).predictedLapsRemaining, 1/5⟩, st)
  | .totalFailure =>
    (HybridDigitalTwin.fallbackPrediction (HybridDigitalTwin.physicsOf inputs), st)

/-- Field-level reading of `predictWith`: the anomaly score. -/
lemma predictWith_anomalyScore (st : TwinState) (inputs : HybridInputs)
    (l : LSTMPredictionQ) :
    (HybridDigitalTwin.predictWith st inputs l).anomalyScore =
      HybridDigitalTwin.calculateAnomalyScore
        |(HybridDigitalTwin.physicsOf inputs).temperature - l.temperature|
        |(HybridDigitalTwin.physicsOf inputs).wearRate - l.wearRate| := rfl

/-- Field-level reading of `predictWith`: the overall confidence. -/
lemma predictWith_confidence (st : TwinState) (inputs : HybridInputs)
    (l : LSTMPredictionQ) :
    (HybridDigitalTwin.predictWith st inputs l).confidence =
      HybridDigitalTwin.calculateOverallConfidence l.confidence
        (HybridDigitalTwin.calculateAnomalyScore
          |(HybridDigitalTwin.physicsOf inputs).temperature - l.temperature|
          |(HybridDigitalTwin.physicsOf inputs).wearRate - l.wearRate|) := rfl

/-- Field-level reading of `predictWith`: the blend weights. -/
lemma predictWith_weights (st : TwinState) (inputs : HybridInputs)
    (l : LSTMPredictionQ) :
    (HybridDigitalTwin.predictWith st inputs l).physicsWeight =
      (HybridDigitalTwin.adaptWeights st
        (HybridDigitalTwin.calculateAnomalyScore
          |(HybridDigitalTwin.physicsOf inputs).temperature - l.temperature|
          |(HybridDigitalTwin.physicsOf inputs).wearRate - l.wearRate|)
        l.confidence).1 ∧
    (HybridDigitalTwin.predictWith st inputs l).mlWeight =
      (HybridDigitalTwin.adaptWeights st
        (HybridDigitalTwin.calculateAnomalyScore
          |(HybridDigitalTwin.physicsOf inputs).temperature - l.temperature|
          |(HybridDigitalTwin.physicsOf inputs).wearRate - l.wearRate|)
        l.confidence).2 := ⟨rfl, rfl⟩

/-- Field-level reading of `predictWith`: wear rate and laps remaining come
from `applyDomainCorrections` applied to the weighted combination. -/
lemma predictWith_corrected (st : TwinState) (inputs : HybridInputs)
    (l : LSTMPredictionQ) :
    (HybridDigitalTwin.predictWith st inputs l).wearRate =
      (HybridDigitalTwin.applyDomainCorrections
        (HybridDigitalTwin.combinePredictions st (HybridDigitalTwin.physicsOf inputs) l
          (HybridDigitalTwin.adaptWeights st
            (HybridDigitalTwin.calculateAnomalyScore
              |(HybridDigitalTwin.physicsOf inputs).temperature - l.temperature|
              |(HybridDigitalTwin.physicsOf inputs).wearRate - l.wearRate|)
            l.confidence)) inputs).2.1 ∧
    (HybridDigitalTwin.predictWith st inputs l).predictedLapsRemaining =
      (HybridDigitalTwin.applyDomainCorrections
        (HybridDigitalTwin.combinePredictions st (HybridDigitalTwin.physicsOf inputs) l
          (HybridDigitalTwin.adaptWeights st
            (HybridDigitalTwin.calculateAnomalyScore
              |(HybridDigitalTwin.physicsOf inputs).temperature - l.temperature|
              |(HybridDigitalTwin.physicsOf inputs).wearRate - l.wearRate|)
            l.confidence)) inputs).2.2 := ⟨rfl, rfl⟩

/-- Mirrors `HybridDigitalTwin.calibrate`: recompute the calibration factor
from the mean relative error and push the base physics weight up (capped at
0.8) when that error exceeds 10%. -/
def HybridDigitalTwin.calibrate (st : TwinState)
    (realWorldData : List (ℚ × ℚ)) : TwinState :=
  if realWorldData.length = 0 then st
  else
    let totalError := (realWorldData.map (fun point => |point.1 - point.2| / point.2)).sum
    let meanError := totalError / realWorldData.length
    let calibrationFactor := 1 / (1 + meanError)
    if 1/10 < meanError then
      let physics := min (4/5) (st.physicsW + 1/10)
      ⟨physics, 1 - physics, calibrationFactor⟩
    else
      ⟨st.physicsW, st.lstmW, calibrationFactor⟩

/-- Empty history sequence (all feature arrays of length 0). -/
def emptySeq : SeqInput := ⟨[], [], [], [], []⟩

/-- Absolute value as a conditional, so that `norm_num` can evaluate it on
rational literals. -/
lemma abs_q (x : ℚ) : |x| = if x < 0 then -x else x := by
  rcases lt_or_ge x 0 with h | h
  · rw [if_pos h, abs_of_neg h]
  · rw [if_neg (not_lt.mpr h), abs_of_nonneg h]

/-- The anomaly score is the average of two values clamped to `[0,1]`, hence
itself in `[0,1]` whenever both divergences are nonnegative. -/
lemma calculateAnomalyScore_bounds (tempDiff wearDiff : ℚ)
    (ht : 0 ≤ tempDiff) (hw : 0 ≤ wearDiff) :
    0 ≤ HybridDigitalTwin.calculateAnomalyScore tempDiff wearDiff ∧
    HybridDigitalTwin.calculateAnomalyScore tempDiff wearDiff ≤ 1 := by
  unfold HybridDigitalTwin.calculateAnomalyScore
  constructor
  · have h1 : (0:ℚ) ≤ min (tempDiff / 200) 1 :=
      le_min (by positivity) (by norm_num)
    have h2 : (0:ℚ) ≤ min (wearDiff / (1/10)) 1 :=
      le_min (by positivity) (by norm_num)
    linarith
  · have h1 : min (tempDiff / 200) 1 ≤ (1:ℚ) := min_le_right _ _
    have h2 : min (wearDiff / (1/10)) 1 ≤ (1:ℚ) := min_le_right _ _
    linarith

/-- The adapted blend weights always sum to exactly 1. -/
lemma adaptWeights_sum (st : TwinState) (anomalyScore lstmConfidence : ℚ) :
    (HybridDigitalTwin.adaptWeights st anomalyScore lstmConfidence).1 +
    (HybridDigitalTwin.adaptWeights st anomalyScore lstmConfidence).2 = 1 := by
  unfold HybridDigitalTwin.adaptWeights
  ring

/-- The adapted physics weight is capped at 0.8. -/
lemma adaptWeights_le (st : TwinState) (anomalyScore lstmConfidence : ℚ) :
    (HybridDigitalTwin.adaptWeights st anomalyScore lstmConfidence).1 ≤ 4/5 :=
  min_le_left _ _

/-- The overall confidence is clamped into `[0.5, 0.95]`. -/
lemma calculateOverallConfidence_bounds (lstmConfidence anomalyScore : ℚ) :
    1/2 ≤ HybridDigitalTwin.calculateOverallConfidence lstmConfidence anomalyScore ∧
    HybridDigitalTwin.calculateOverallConfidence lstmConfidence anomalyScore ≤ 19/20 :=
  ⟨le_max_left _ _, max_le (by norm_num) (min_le_left _ _)⟩

/-- Concrete fusion-engine input used in the C2 counterexample. -/
def c2cexInputs : HybridInputs := ⟨c1cexInputs, emptySeq, none⟩

/-- C2 counterexample: on the total-failure fallback path the fusion engine
returns confidence 0.4 (below the claimed floor 0.5) and physics weight 1.0
(above the claimed cap 0.8), so the claimed bounds do not hold on that path. -/
theorem c2_fallback_violates_bounds :
    ¬ (1/2 ≤ (HybridDigitalTwin.predict initialTwinState c2cexInputs
          .totalFailure).1.confidence ∧
       (HybridDigitalTwin.predict initialTwinState c2cexInputs
          .totalFailure).1.physicsWeight ≤ 4/5) := by
  intro h
  have h1 : (HybridDigitalTwin.predict initialTwinState c2cexInputs
      .totalFailure).1.confidence = 2/5 := rfl
  have h2 : (HybridDigitalTwin.predict initialTwinState c2cexInputs
      .totalFailure).1.physicsWeight = 1 := rfl
  rw [h1, h2] at h
  norm_num at h

/-- C2 (amended): on every path other than the total failure of the outer
`try` block, `HybridDigitalTwin.predict` returns `anomalyScore ∈ [0,1]`,
`confidence ∈ [0.5, 0.95]`, `physicsWeight + mlWeight = 1` exactly, and
`physicsWeight ≤ 0.8`; the total-failure path instead returns the fixed
degraded output with confidence 0.4, physics weight 1, ml weight 0 and
anomaly score 0.8. -/
theorem c2_fusion_output_bounds (st : TwinState) (inputs : HybridInputs)
    (outcome : LSTMOutcome) (hout : outcome ≠ .totalFailure) :
    (0 ≤ (HybridDigitalTwin.predict st inputs outcome).1.anomalyScore ∧
      (HybridDigitalTwin.predict st inputs outcome).1.anomalyScore ≤ 1) ∧
    (1/2 ≤ (HybridDigitalTwin.predict st inputs outcome).1.confidence ∧
      (HybridDigitalTwin.predict st inputs outcome).1.confidence ≤ 19/20) ∧
    (HybridDigitalTwin.predict st inputs outcome).1.physicsWeight +
      (HybridDigitalTwin.predict st inputs outcome).1.mlWeight = 1 ∧
    (HybridDigitalTwin.predict st inputs outcome).1.physicsWeight ≤ 4/5 ∧
    (HybridDigitalTwin.predict st inputs .totalFailure).1.confidence = 2/5 ∧
    (HybridDigitalTwin.predict st inputs .totalFailure).1.physicsWeight = 1 ∧
    (HybridDigitalTwin.predict st inputs .totalFailure).1.mlWeight = 0 ∧
    (HybridDigitalTwin.predict st inputs .totalFailure).1.anomalyScore = 4/5 := by
  have hfb : (HybridDigitalTwin.predict st inputs .totalFailure).1 =
      HybridDigitalTwin.fallbackPrediction (HybridDigitalTwin.physicsOf inputs) := rfl
  cases outcome with
  | totalFailure => exact absurd rfl hout
  | ok p =>
    refine ⟨?_, ?_, ?_, ?_, by rw [hfb]; rfl, by rw [hfb]; rfl,
      by rw [hfb]; rfl, by rw [hfb]; rfl⟩
    · rw [show (HybridDigitalTwin.predict st inputs (.ok p)).1 =
        HybridDigitalTwin.predictWith st inputs p from rfl, predictWith_anomalyScore]
      exact calculateAnomalyScore_bounds _ _ (abs_nonneg _) (abs_nonneg _)
    · rw [show (HybridDigitalTwin.predict st inputs (.ok p)).1 =
        HybridDigitalTwin.predictWith st inputs p from rfl, predictWith_confidence]
      exact calculateOverallConfidence_bounds _ _
    · rw [show (HybridDigitalTwin.predict st inputs (.ok p)).1 =
        HybridDigitalTwin.predictWith st inputs p from rfl,
        (predictWith_weights st inputs p).1, (predictWith_weights st inputs p).2]
      exact adaptWeights_sum _ _ _
    · rw [show (HybridDigitalTwin.predict st inputs (.ok p)).1 =
        HybridDigitalTwin.predictWith st inputs p from rfl,
        (predictWith_weights st inputs p).1]
      exact adaptWeights_le _ _ _
  | invalid =>
    refine ⟨?_, ?_, ?_, ?_, by rw [hfb]; rfl, by rw [hfb]; rfl,
      by rw [hfb]; rfl, by rw [hfb]; rfl⟩
    all_goals rw [show (HybridDigitalTwin.predict st inputs .invalid).1 =
      HybridDigitalTwin.predictWith st inputs
        ⟨(HybridDigitalTwin.physicsOf inputs).temperature,
         (HybridDigitalTwin.physicsOf inputs).wearRate,
         (HybridDigitalTwin.physicsOf inputs).predictedLapsRemaining, 3/10⟩ from rfl]
    · rw [predictWith_anomalyScore]
      exact calculateAnomalyScore_bounds _ _ (abs_nonneg _) (abs_nonneg _)
    · rw [predictWith_confidence]
      exact calculateOverallConfidence_bounds _ _
    · rw [(predictWith_weights st inputs _).1, (predictWith_weights st inputs _).2]
      exact adaptWeights_sum _ _ _
    · rw [(predictWith_weights st inputs _).1]
      exact adaptWeights_le _ _ _
  | err =>
    refine ⟨?_, ?_, ?_, ?_, by rw [hfb]; rfl, by rw [hfb]; rfl,
      by rw [hfb]; rfl, by rw [hfb]; rfl⟩
    all_goals rw [show (HybridDigitalTwin.predict st inputs .err).1 =
      HybridDigitalTwin.predictWith st inputs
        ⟨(HybridDigitalTwin.physicsOf inputs).temperature,
         (HybridDigitalTwin.physicsOf inputs).wearRate,
         (HybridDigitalTwin.physicsOf inputs).predictedLapsRemaining, 1/5⟩ from rfl]
    · rw [predictWith_anomalyScore]
      exact calculateAnomalyScore_bounds _ _ (abs_nonneg _) (abs_nonneg _)
    · rw [predictWith_confidence]
      exact calculateOverallConfidence_bounds _ _
    · rw [(predictWith_weights st inputs _).1, (predictWith_weights st inputs _).2]
      exact adaptWeights_sum _ _ _
    · rw [(predictWith_weights st inputs _).1]
      exact adaptWeights_le _ _ _

/-- Witness for the amended C2 bound theorem at a concrete input. -/
theorem c2_fusion_output_bounds_witness :
    (0 ≤ (HybridDigitalTwin.predict initialTwinState c2cexInputs
        (.ok ⟨400, 1/20, 30, 4/5⟩)).1.anomalyScore ∧
      (HybridDigitalTwin.predict initialTwinState c2cexInputs
        (.ok ⟨400, 1/20, 30, 4/5⟩)).1.anomalyScore ≤ 1) ∧
    (1/2 ≤ (HybridDigitalTwin.predict initialTwinState c2cexInputs
        (.ok ⟨400, 1/20, 30, 4/5⟩)).1.confidence ∧
      (HybridDigitalTwin.predict initialTwinState c2cexInputs
        (.ok ⟨400, 1/20, 30, 4/5⟩)).1.confidence ≤ 19/20) ∧
    (HybridDigitalTwin.predict initialTwinState c2cexInputs
        (.ok ⟨400, 1/20, 30, 4/5⟩)).1.physicsWeight +
      (HybridDigitalTwin.predict initialTwinState c2cexInputs
        (.ok ⟨400, 1/20, 30, 4/5⟩)).1.mlWeight = 1 ∧
    (HybridDigitalTwin.predict initialTwinState c2cexInputs
        (.ok ⟨400, 1/20, 30, 4/5⟩)).1.physicsWeight ≤ 4/5 ∧
    (HybridDigitalTwin.predict initialTwinState c2cexInputs
        .totalFailure).1.confidence = 2/5 ∧
    (HybridDigitalTwin.predict initialTwinState c2cexInputs
        .totalFailure).1.physicsWeight = 1 ∧
    (HybridDigitalTwin.predict initialTwinState c2cexInputs
        .totalFailure).1.mlWeight = 0 ∧
    (HybridDigitalTwin.predict initialTwinState c2cexInputs
        .totalFailure).1.anomalyScore = 4/5 :=
  c2_fusion_output_bounds initialTwinState c2cexInputs
    (.ok ⟨400, 1/20, 30, 4/5⟩) (by simp)

/-- After `applyDomainCorrections`, whenever the corrected wear rate exceeds
0.1 and the corrected laps value exceeds 50, the laps value is bounded by
`padThickness / wearRate`. -/
lemma applyDomainCorrections_cross (prediction : ℚ × ℚ × ℚ)
    (inputs : HybridInputs)
    (hw : 1/10 < (HybridDigitalTwin.applyDomainCorrections prediction inputs).2.1)
    (hl : 50 < (HybridDigitalTwin.applyDomainCorrections prediction inputs).2.2) :
    (HybridDigitalTwin.applyDomainCorrections prediction inputs).2.2 ≤
      inputs.currentState.padThickness /
        (HybridDigitalTwin.applyDomainCorrections prediction inputs).2.1 := by
  unfold HybridDigitalTwin.applyDomainCorrections at *
  dsimp only at hw hl ⊢
  by_cases hc : 1/10 < max 0 (min 1 prediction.2.1) ∧
      50 < max 0 (min (inputs.currentState.padThickness / (1/1000)) prediction.2.2)
  · rw [if_pos hc] at hl ⊢
    exact min_le_right _ _
  · rw [if_neg hc] at hl
    exact absurd ⟨hw, hl⟩ hc

/-- Concrete fusion-engine input for the C3 counterexample: zero heat load,
pad thickness 2.04 mm, so the physics path reports 40 laps remaining. -/
def c3cexInputs : HybridInputs :=
  ⟨{ wheelSpeed := 0, brakePressure := 0, ambientTemp := 25, padThickness := 51/25
     discMass := 17/2, padArea := 25, timeStep := 1 }, emptySeq, none⟩

/-- Concrete learned-model output for the C3 counterexample. -/
def c3cexLstm : LSTMPredictionQ := ⟨25, 7/20, 40, 9/10⟩

/-- C3 counterexample: a fused prediction with wear rate 1407/11000 ≈ 0.128
mm/lap (> 0.1) and 40 laps remaining, while `padThickness / wearRate` ≈ 15.95;
the claimed bound fails by more than 24 laps because the cross-consistency
rule in `applyDomainCorrections` only fires when the laps value exceeds 50. -/
theorem c3_cross_consistency_cex :
    1/10 < (HybridDigitalTwin.predict initialTwinState c3cexInputs
      (.ok c3cexLstm)).1.wearRate ∧
    c3cexInputs.currentState.padThickness /
      (HybridDigitalTwin.predict initialTwinState c3cexInputs
        (.ok c3cexLstm)).1.wearRate + 1 <
      (HybridDigitalTwin.predict initialTwinState c3cexInputs
        (.ok c3cexLstm)).1.predictedLapsRemaining := by
  have he : (HybridDigitalTwin.predict initialTwinState c3cexInputs
      (.ok c3cexLstm)).1 = HybridDigitalTwin.predictWith initialTwinState
      c3cexInputs c3cexLstm := rfl
  have hphys : HybridDigitalTwin.physicsOf c3cexInputs =
      ⟨25, 1/1000, 0, 0, 40, 0⟩ := by
    norm_num [HybridDigitalTwin.physicsOf, PhysicsModel.predict, c3cexInputs,
      jround, piJS, min_def, max_def,
      PhysicsModel.FRICTION_COEFFICIENT, PhysicsModel.SPECIFIC_HEAT_CAPACITY,
      PhysicsModel.CONVECTION_COEFFICIENT, PhysicsModel.WEAR_COEFFICIENT,
      PhysicsModel.DISC_RADIUS, PhysicsModel.DISC_MASS, PhysicsModel.SURFACE_AREA]
  rw [he, (predictWith_corrected _ _ _).1, (predictWith_corrected _ _ _).2, hphys]
  norm_num [c3cexInputs, c3cexLstm, initialTwinState, min_def, max_def, abs_q,
    HybridDigitalTwin.calculateAnomalyScore, HybridDigitalTwin.adaptWeights,
    HybridDigitalTwin.combinePredictions, HybridDigitalTwin.applyDomainCorrections]

/-- C3 (amended): for every engine state, input and learned-model outcome, if
the fused prediction's wear rate exceeds 0.1 mm/lap AND its laps-remaining
value exceeds 50, then laps-remaining is at most `padThickness / wearRate`.
(The rule does not apply below 50 laps; on the total-failure path the physics
wear rate is capped at 0.1 so the premise is vacuous.) -/
theorem c3_cross_consistency (st : TwinState) (inputs : HybridInputs)
    (outcome : LSTMOutcome)
    (hw : 1/10 < (HybridDigitalTwin.predict st inputs outcome).1.wearRate)
    (hl : 50 < (HybridDigitalTwin.predict st inputs outcome).1.predictedLapsRemaining) :
    (HybridDigitalTwin.predict st inputs outcome).1.predictedLapsRemaining ≤
      inputs.currentState.padThickness /
        (HybridDigitalTwin.predict st inputs outcome).1.wearRate := by
  cases outcome with
  | totalFailure =>
    have hr : (HybridDigitalTwin.predict st inputs .totalFailure).1.wearRate =
        (HybridDigitalTwin.physicsOf inputs).wearRate := rfl
    rw [hr] at hw
    have hcap : (HybridDigitalTwin.physicsOf inputs).wearRate ≤ 1/10 :=
      max_le (by norm_num) (min_le_left _ _)
    exact absurd hw (not_lt.mpr hcap)
  | ok p =>
    rw [show (HybridDigitalTwin.predict st inputs (.ok p)).1 =
      HybridDigitalTwin.predictWith st inputs p from rfl,
      (predictWith_corrected st inputs p).1, (predictWith_corrected st inputs p).2] at *
    exact applyDomainCorrections_cross _ _ hw hl
  | invalid =>
    rw [show (HybridDigitalTwin.predict st inputs .invalid).1 =
      HybridDigitalTwin.predictWith st inputs
        ⟨(HybridDigitalTwin.physicsOf inputs).temperature,
         (HybridDigitalTwin.physicsOf inputs).wearRate,
         (HybridDigitalTwin.physicsOf inputs).predictedLapsRemaining, 3/10⟩ from rfl,
      (predictWith_corrected st inputs _).1, (predictWith_corrected st inputs _).2] at *
    exact applyDomainCorrections_cross _ _ hw hl
  | err =>
    rw [show (HybridDigitalTwin.predict st inputs .err).1 =
      HybridDigitalTwin.predictWith st inputs
        ⟨(HybridDigitalTwin.physicsOf inputs).temperature,
         (HybridDigitalTwin.physicsOf inputs).wearRate,
         (HybridDigitalTwin.physicsOf inputs).predictedLapsRemaining, 1/5⟩ from rfl,
      (predictWith_corrected st inputs _).1, (predictWith_corrected st inputs _).2] at *
    exact applyDomainCorrections_cross _ _ hw hl

/-- Concrete fusion-engine input for the C3 witness: pad thickness 10 mm. -/
def c3wInputs : HybridInputs :=
  ⟨{ wheelSpeed := 0, brakePressure := 0, ambientTemp := 25, padThickness := 10
     discMass := 17/2, padArea := 25, timeStep := 1 }, emptySeq, none⟩

/-- Concrete learned-model output for the C3 witness. -/
def c3wLstm : LSTMPredictionQ := ⟨25, 3/10, 0, 9/10⟩

/-- Concrete physics output on the C3 witness input. -/
lemma physicsOf_c3w : HybridDigitalTwin.physicsOf c3wInputs =
    ⟨25, 1/1000, 0, 0, 200, 0⟩ := by
  norm_num [HybridDigitalTwin.physicsOf, PhysicsModel.predict, c3wInputs,
    jround, piJS, min_def, max_def,
    PhysicsModel.FRICTION_COEFFICIENT, PhysicsModel.SPECIFIC_HEAT_CAPACITY,
    PhysicsModel.CONVECTION_COEFFICIENT, PhysicsModel.WEAR_COEFFICIENT,
    PhysicsModel.DISC_RADIUS, PhysicsModel.DISC_MASS, PhysicsModel.SURFACE_AREA]

/-- Witness for the amended C3: a concrete run whose fused wear rate is
1207/11000 > 0.1 and whose laps value exceeds 50, with both hypotheses
discharged by computation. -/
theorem c3_cross_consistency_witness :
    (HybridDigitalTwin.predict initialTwinState c3wInputs
        (.ok c3wLstm)).1.predictedLapsRemaining ≤
      c3wInputs.currentState.padThickness /
        (HybridDigitalTwin.predict initialTwinState c3wInputs
          (.ok c3wLstm)).1.wearRate :=
  c3_cross_consistency initialTwinState c3wInputs (.ok c3wLstm)
    (by
      rw [show (HybridDigitalTwin.predict initialTwinState c3wInputs
        (.ok c3wLstm)).1 = HybridDigitalTwin.predictWith initialTwinState
        c3wInputs c3wLstm from rfl, (predictWith_corrected _ _ _).1,
        physicsOf_c3w]
      norm_num [c3wInputs, c3wLstm, initialTwinState, min_def, max_def, abs_q,
        HybridDigitalTwin.calculateAnomalyScore, HybridDigitalTwin.adaptWeights,
        HybridDigitalTwin.combinePredictions,
        HybridDigitalTwin.applyDomainCorrections])
    (by
      rw [show (HybridDigitalTwin.predict initialTwinState c3wInputs
        (.ok c3wLstm)).1 = HybridDigitalTwin.predictWith initialTwinState
        c3wInputs c3wLstm from rfl, (predictWith_corrected _ _ _).2,
        physicsOf_c3w]
      norm_num [c3wInputs, c3wLstm, initialTwinState, min_def, max_def, abs_q,
        HybridDigitalTwin.calculateAnomalyScore, HybridDigitalTwin.adaptWeights,
        HybridDigitalTwin.combinePredictions,
        HybridDigitalTwin.applyDomainCorrections])

/-- C10: `HybridDigitalTwin.predict` never modifies the persistent instance
state — the calibration factor and both base adaptive weights are returned
unchanged on every path — while `calibrate` does mutate them (shown on a
sample with 100% relative error). -/
theorem c10_predict_frame (st : TwinState) (inputs : HybridInputs)
    (outcome : LSTMOutcome) :
    ((HybridDigitalTwin.predict st inputs outcome).2.physicsW = st.physicsW ∧
     (HybridDigitalTwin.predict st inputs outcome).2.lstmW = st.lstmW ∧
     (HybridDigitalTwin.predict st inputs outcome).2.calibrationFactor =
       st.calibrationFactor) ∧
    HybridDigitalTwin.calibrate initialTwinState [(2, 1)] ≠ initialTwinState := by
  constructor
  · cases outcome <;> exact ⟨rfl, rfl, rfl⟩
  · intro h
    have h2 : (HybridDigitalTwin.calibrate initialTwinState
        [(2, 1)]).calibrationFactor = initialTwinState.calibrationFactor := by
      rw [h]
    rw [show HybridDigitalTwin.calibrate initialTwinState [(2, 1)] =
      ⟨7/10, 3/10, 1/2⟩ by
        norm_num [HybridDigitalTwin.calibrate, initialTwinState]] at h2
    norm_num [initialTwinState] at h2

/-- The spec's stated anomaly formula: average of the two normalized
divergences, each capped at 1 after dividing by its tolerance (200 °C for
temperature, 0.1 mm/lap for wear). -/
def anomalyScoreSpec (tempDiff wearDiff : ℚ) : ℚ :=
  (min (tempDiff / 200) 1 + min (wearDiff / (1/10)) 1) / 2

/-- C5: the fusion engine's anomaly score equals the spec's capped-average
formula, lies in `[0,1]`, is monotone in each absolute divergence, and in
particular a 300 °C temperature disagreement never scores below a 50 °C one
at equal wear divergence. -/
theorem c5_anomaly_score (tempDiff tempDiff2 wearDiff wearDiff2 : ℚ)
    (ht : 0 ≤ tempDiff) (hw : 0 ≤ wearDiff) :
    HybridDigitalTwin.calculateAnomalyScore tempDiff wearDiff =
      anomalyScoreSpec tempDiff wearDiff ∧
    0 ≤ HybridDigitalTwin.calculateAnomalyScore tempDiff wearDiff ∧
    HybridDigitalTwin.calculateAnomalyScore tempDiff wearDiff ≤ 1 ∧
    (tempDiff ≤ tempDiff2 →
      HybridDigitalTwin.calculateAnomalyScore tempDiff wearDiff ≤
        HybridDigitalTwin.calculateAnomalyScore tempDiff2 wearDiff) ∧
    (wearDiff ≤ wearDiff2 →
      HybridDigitalTwin.calculateAnomalyScore tempDiff wearDiff ≤
        HybridDigitalTwin.calculateAnomalyScore tempDiff wearDiff2) ∧
    HybridDigitalTwin.calculateAnomalyScore 50 wearDiff ≤
      HybridDigitalTwin.calculateAnomalyScore 300 wearDiff := by
  refine ⟨rfl, (calculateAnomalyScore_bounds _ _ ht hw).1,
    (calculateAnomalyScore_bounds _ _ ht hw).2, ?_, ?_, ?_⟩
  · intro h
    unfold HybridDigitalTwin.calculateAnomalyScore
    have h1 : min (tempDiff / 200) 1 ≤ min (tempDiff2 / 200) 1 :=
      min_le_min (by linarith) le_rfl
    linarith
  · intro h
    unfold HybridDigitalTwin.calculateAnomalyScore
    have h1 : min (wearDiff / (1/10)) 1 ≤ min (wearDiff2 / (1/10)) 1 :=
      min_le_min (by
        rw [div_le_div_iff₀ (by norm_num) (by norm_num)]
        linarith) le_rfl
    linarith
  · unfold HybridDigitalTwin.calculateAnomalyScore
    have h1 : min ((50:ℚ) / 200) 1 ≤ min ((300:ℚ) / 200) 1 :=
      min_le_min (by norm_num) le_rfl
    linarith

/-- Witness for the C5 theorem at concrete divergences. -/
theorem c5_anomaly_score_witness :
    HybridDigitalTwin.calculateAnomalyScore 20 (1/100) =
      anomalyScoreSpec 20 (1/100) ∧
    0 ≤ HybridDigitalTwin.calculateAnomalyScore 20 (1/100) ∧
    HybridDigitalTwin.calculateAnomalyScore 20 (1/100) ≤ 1 ∧
    ((20:ℚ) ≤ 60 →
      HybridDigitalTwin.calculateAnomalyScore 20 (1/100) ≤
        HybridDigitalTwin.calculateAnomalyScore 60 (1/100)) ∧
    ((1:ℚ)/100 ≤ 1/50 →
      HybridDigitalTwin.calculateAnomalyScore 20 (1/100) ≤
        HybridDigitalTwin.calculateAnomalyScore 20 (1/50)) ∧
    HybridDigitalTwin.calculateAnomalyScore 50 (1/100) ≤
      HybridDigitalTwin.calculateAnomalyScore 300 (1/100) :=
  c5_anomaly_score 20 60 (1/100) (1/50) (by norm_num) (by norm_num)

/-- C9: `PhysicsModel.predict` is a pure function of its two arguments — two
calls on identical operating state and identical previous temperature agree
on every output field. -/
theorem c9_predict_deterministic (inputs : BrakePhysicsInputs)
    (previousTemp : ℚ) (o1 o2 : BrakePhysicsOutputs)
    (h1 : o1 = PhysicsModel.predict inputs previousTemp)
    (h2 : o2 = PhysicsModel.predict inputs previousTemp) :
    o1.temperature = o2.temperature ∧ o1.wearRate = o2.wearRate ∧
    o1.heatGeneration = o2.heatGeneration ∧ o1.coolingRate = o2.coolingRate ∧
    o1.predictedLapsRemaining = o2.predictedLapsRemaining ∧
    o1.thermalStress = o2.thermalStress := by
  subst h1
  subst h2
  exact ⟨rfl, rfl, rfl, rfl, rfl, rfl⟩

/-- Witness for C9 at a concrete operating state. -/
theorem c9_predict_deterministic_witness :
    (PhysicsModel.predict c1cexInputs 25).temperature =
      (PhysicsModel.predict c1cexInputs 25).temperature ∧
    (PhysicsModel.predict c1cexInputs 25).wearRate =
      (PhysicsModel.predict c1cexInputs 25).wearRate ∧
    (PhysicsModel.predict c1cexInputs 25).heatGeneration =
      (PhysicsModel.predict c1cexInputs 25).heatGeneration ∧
    (PhysicsModel.predict c1cexInputs 25).coolingRate =
      (PhysicsModel.predict c1cexInputs 25).coolingRate ∧
    (PhysicsModel.predict c1cexInputs 25).predictedLapsRemaining =
      (PhysicsModel.predict c1cexInputs 25).predictedLapsRemaining ∧
    (PhysicsModel.predict c1cexInputs 25).thermalStress =
      (PhysicsModel.predict c1cexInputs 25).thermalStress :=
  c9_predict_deterministic c1cexInputs 25 _ _ rfl rfl

/-- The temperature field of `PhysicsModel.predict` (what `getSteadyState`
feeds back between iterations). -/
def PhysicsModel.predictTemp (inputs : BrakePhysicsInputs)
    (previousTemp : ℚ) : ℚ :=
  (PhysicsModel.predict inputs previousTemp).temperature

/-- The (unclamped) heat-generation term of `PhysicsModel.predict`:
friction coefficient × normal force × linear surface velocity. -/
def PhysicsModel.heatGenerationOf (inputs : BrakePhysicsInputs) : ℚ :=
  PhysicsModel.FRICTION_COEFFICIENT *
    (inputs.brakePressure * 100000 * (inputs.padArea / 10000)) *
    (inputs.wheelSpeed * 2 * piJS / 60 * PhysicsModel.DISC_RADIUS)

/-- The thermal fixed point of the per-step temperature update: ambient plus
heat generation divided by the convective-cooling coefficient. -/
def PhysicsModel.fixedPointTemp (inputs : BrakePhysicsInputs) : ℚ :=
  inputs.ambientTemp + PhysicsModel.heatGenerationOf inputs /
    (PhysicsModel.CONVECTION_COEFFICIENT * PhysicsModel.SURFACE_AREA)

/-- Closed form of the per-step temperature update. -/
lemma predictTemp_eq (inputs : BrakePhysicsInputs) (previousTemp : ℚ) :
    PhysicsModel.predictTemp inputs previousTemp =
      max inputs.ambientTemp
        (previousTemp + (PhysicsModel.heatGenerationOf inputs -
          PhysicsModel.CONVECTION_COEFFICIENT * PhysicsModel.SURFACE_AREA *
            (previousTemp - inputs.ambientTemp)) * inputs.timeStep /
          (PhysicsModel.DISC_MASS * PhysicsModel.SPECIFIC_HEAT_CAPACITY)) := rfl

/-- The `while` loop of `PhysicsModel.getSteadyState`, with the remaining
iteration budget (`100 - iterations`) as structural fuel: state is
`(currentTemp, previousTemp, iterations)`. -/
def PhysicsModel.steadyGo (inputs : BrakePhysicsInputs) :
    ℕ → ℚ → ℚ → ℕ → ℚ × ℚ × ℕ
  | 0, cur, prev, iters => (cur, prev, iters)
  | fuel+1, cur, prev, iters =>
    if 1/10 < |cur - prev| then
      PhysicsModel.steadyGo inputs fuel (PhysicsModel.predictTemp inputs cur)
        cur (iters + 1)
    else (cur, prev, iters)

/-- The full convergence loop of `PhysicsModel.getSteadyState`
(`currentTemp = 25`, `previousTemp = 0`, `iterations = 0`, budget 100). -/
def PhysicsModel.steadyLoop (inputs : BrakePhysicsInputs) : ℚ × ℚ × ℕ :=
  PhysicsModel.steadyGo inputs 100 25 0 0

/-- Mirrors `PhysicsModel.getSteadyState`: run the loop, then one final
`predict` at the converged temperature. -/
def PhysicsModel.getSteadyState (inputs : BrakePhysicsInputs) :
    BrakePhysicsOutputs :=
  PhysicsModel.predict inputs (PhysicsModel.steadyLoop inputs).1

/-- Loop invariant for `steadyGo`: the iteration count grows by at most the
fuel, and on exit either the last two temperatures are within 0.1 °C or the
whole budget was consumed. -/
lemma steadyGo_spec (inputs : BrakePhysicsInputs) :
    ∀ fuel cur prev iters,
      (PhysicsModel.steadyGo inputs fuel cur prev iters).2.2 ≤ iters + fuel ∧
      (|(PhysicsModel.steadyGo inputs fuel cur prev iters).1 -
          (PhysicsModel.steadyGo inputs fuel cur prev iters).2.1| ≤ 1/10 ∨
        (PhysicsModel.steadyGo inputs fuel cur prev iters).2.2 = iters + fuel) := by
  intro fuel
  induction fuel with
  | zero =>
    intro cur prev iters
    exact ⟨Nat.le_refl _, Or.inr rfl⟩
  | succ n ih =>
    intro cur prev iters
    rw [PhysicsModel.steadyGo]
    by_cases h : 1/10 < |cur - prev|
    · rw [if_pos h]
      refine ⟨le_trans (ih _ _ _).1 (by omega), ?_⟩
      rcases (ih (PhysicsModel.predictTemp inputs cur) cur (iters + 1)).2 with hl | hr
      · exact Or.inl hl
      · exact Or.inr (hr.trans (by omega))
    · rw [if_neg h]
      exact ⟨Nat.le_add_right iters (n + 1), Or.inl (le_of_not_lt h)⟩

/-- C7: the steady-state iteration always stops — it performs at most 100
iterations and on exit either the last two temperatures differ by at most
0.1 °C or the budget of 100 iterations is spent — and under a constant
heating load (nonnegative speed, pressure, pad area, and a time step in
`[0, 8160]` s) the per-step temperature map is monotone below its fixed
point: any temperature between ambient and the fixed point steps upward and
never overshoots the fixed point. -/
theorem c7_steady_state (inputs : BrakePhysicsInputs)
    (hs : 0 ≤ inputs.wheelSpeed) (hp : 0 ≤ inputs.brakePressure)
    (ha : 0 ≤ inputs.padArea) (hd : 0 ≤ inputs.timeStep)
    (hdt : inputs.timeStep ≤ 8160) :
    ((PhysicsModel.steadyLoop inputs).2.2 ≤ 100 ∧
      (|(PhysicsModel.steadyLoop inputs).1 -
          (PhysicsModel.steadyLoop inputs).2.1| ≤ 1/10 ∨
        (PhysicsModel.steadyLoop inputs).2.2 = 100)) ∧
    (∀ T, inputs.ambientTemp ≤ T → T ≤ PhysicsModel.fixedPointTemp inputs →
      T ≤ PhysicsModel.predictTemp inputs T ∧
      PhysicsModel.predictTemp inputs T ≤ PhysicsModel.fixedPointTemp inputs) := by
  have hpi : (0:ℚ) < piJS := by norm_num [piJS]
  have hH : 0 ≤ PhysicsModel.heatGenerationOf inputs := by
    unfold PhysicsModel.heatGenerationOf
    unfold PhysicsModel.FRICTION_COEFFICIENT PhysicsModel.DISC_RADIUS
    positivity
  constructor
  · exact steadyGo_spec inputs 100 25 0 0
  · intro T hT hfix
    rw [predictTemp_eq]
    have hconv : PhysicsModel.CONVECTION_COEFFICIENT *
        PhysicsModel.SURFACE_AREA = 5/4 := by
      norm_num [PhysicsModel.CONVECTION_COEFFICIENT, PhysicsModel.SURFACE_AREA]
    have hcap : PhysicsModel.DISC_MASS *
        PhysicsModel.SPECIFIC_HEAT_CAPACITY = 10200 := by
      norm_num [PhysicsModel.DISC_MASS, PhysicsModel.SPECIFIC_HEAT_CAPACITY]
    unfold PhysicsModel.fixedPointTemp at hfix ⊢
    rw [hconv] at hfix ⊢
    rw [hcap]
    set H := PhysicsModel.heatGenerationOf inputs with hHdef
    have hdiv : H / (5/4 : ℚ) = H * (4/5) := by ring
    rw [hdiv] at hfix ⊢
    have hfix2 : (5:ℚ)/4 * (T - inputs.ambientTemp) ≤ H := by linarith
    constructor
    · refine le_max_of_le_right ?_
      have hstep : 0 ≤ (H - 5/4 * (T - inputs.ambientTemp)) *
          inputs.timeStep / 10200 :=
        div_nonneg (mul_nonneg (by linarith) hd) (by norm_num)
      linarith
    · apply max_le
      · have h0 : 0 ≤ H * (4/5 : ℚ) :=
          mul_nonneg hH (by norm_num)
        linarith
      · have hD : 0 ≤ inputs.ambientTemp + H * (4/5) - T := by linarith
        have hfrac : 0 ≤ 1 - inputs.timeStep / 8160 := by
          have h1 : inputs.timeStep / 8160 ≤ 1 := by
            rw [div_le_one (by norm_num)]
            exact hdt
          linarith
        nlinarith [mul_nonneg hD hfrac]

/-- Concrete operating state for the C7 witness (600 rpm, 100 bar). -/
def c7wInputs : BrakePhysicsInputs :=
  { wheelSpeed := 600, brakePressure := 100, ambientTemp := 25, padThickness := 10
    discMass := 17/2, padArea := 25, timeStep := 1 }

/-- Witness for C7: the monotone-step part instantiated at ambient
temperature on a concrete heating load. -/
theorem c7_steady_state_witness :
    (25:ℚ) ≤ PhysicsModel.predictTemp c7wInputs 25 ∧
    PhysicsModel.predictTemp c7wInputs 25 ≤ PhysicsModel.fixedPointTemp c7wInputs :=
  (c7_steady_state c7wInputs (by norm_num [c7wInputs]) (by norm_num [c7wInputs])
    (by norm_num [c7wInputs]) (by norm_num [c7wInputs])
    (by norm_num [c7wInputs])).2 25 (by norm_num [c7wInputs])
    (by
      have hH : 0 ≤ PhysicsModel.heatGenerationOf c7wInputs := by
        norm_num [PhysicsModel.heatGenerationOf, c7wInputs, piJS,
          PhysicsModel.FRICTION_COEFFICIENT, PhysicsModel.DISC_RADIUS]
      have : 0 ≤ PhysicsModel.heatGenerationOf c7wInputs /
          (PhysicsModel.CONVECTION_COEFFICIENT * PhysicsModel.SURFACE_AREA) := by
        apply div_nonneg hH
        norm_num [PhysicsModel.CONVECTION_COEFFICIENT, PhysicsModel.SURFACE_AREA]
      unfold PhysicsModel.fixedPointTemp
      have h25 : c7wInputs.ambientTemp = 25 := rfl
      rw [h25]
      linarith)

/-- Abstract machine numerics: `Math.exp` and `Math.tanh` as rational-valued
oracles (their transcendental values never influence the properties proved
here, only the surrounding control flow does). -/
structure Numerics where
  exp : ℚ → ℚ
  tanh : ℚ → ℚ

/-- JavaScript `arr.slice(-n)`: the last `n` elements (all of them when the
array is shorter). -/
def takeLast {α : Type} (n : ℕ) (l : List α) : List α := l.drop (l.length - n)

/-- Largest element of a list (`Math.max(...x)` on a nonempty array). -/
def listMax : List ℚ → ℚ
  | [] => 0
  | h :: t => t.foldl max h

/-- `LSTMModel.sequenceLength`. -/
def LSTMModel.sequenceLength : ℕ := 10

/-- `LSTMModel.hiddenSize`. -/
def LSTMModel.hiddenSize : ℕ := 128

/-- The ±500 clipping applied before the LSTM's activations. -/
def clip500 (x : ℚ) : ℚ := max (-500) (min 500 x)

/-- Mirrors `LSTMModel.sigmoid` (clipped logistic). -/
def LSTMModel.sigmoid (nums : Numerics) (x : ℚ) : ℚ :=
  1 / (1 + nums.exp (-(clip500 x)))

/-- Mirrors `LSTMModel.tanh` (clipped). -/
def LSTMModel.tanhC (nums : Numerics) (x : ℚ) : ℚ := nums.tanh (clip500 x)

/-- Mirrors `LSTMModel.normalizeInputs` (per-feature scaling, indexed by the
wheel-speed array's length). -/
def LSTMModel.normalizeInputs (seq : SeqInput) : List (List ℚ) :=
  (List.range seq.wheelSpeed.length).map (fun i =>
    [seq.wheelSpeed.getD i 0 / 3000,
     seq.brakePressure.getD i 0 / 300,
     (seq.ambientTemp.getD i 0 + 50) / 1200,
     seq.padThickness.getD i 0 / 15])

/-- The hardcoded pad vector used when the sliced sequence is empty
(`[0.5, 0.4, 0.4, 0.8]`). -/
def LSTMModel.defaultLastInput : List ℚ := [1/2, 2/5, 2/5, 4/5]

/-- The sequence actually processed by `LSTMModel.predict`: the normalized
inputs sliced to the last 10 samples, left-padded to 10 by repeating the most
recent sample — but only when fewer than 3 samples remain. -/
def LSTMModel.sequenceData (seq : SeqInput) : List (List ℚ) :=
  let sliced := takeLast LSTMModel.sequenceLength (LSTMModel.normalizeInputs seq)
  if sliced.length < 3 then
    List.replicate (LSTMModel.sequenceLength - sliced.length)
      (sliced.getLast?.getD LSTMModel.defaultLastInput) ++ sliced
  else sliced

/-- Mirrors `LSTMModel.matrixVectorMultiply` (iterates over the vector's
length). -/
def LSTMModel.matrixVectorMultiply (matrix : List (List ℚ)) (vector : List ℚ)
    (bias : List ℚ) : List ℚ :=
  (List.range matrix.length).map (fun i =>
    bias.getD i 0 + ((List.range vector.length).map (fun j =>
      (matrix.getD i []).getD j 0 * vector.getD j 0)).sum)

/-- Weight tensors of an `LSTMModel` instance: the four gate matrices and
biases of the two recurrent layers actually used (forward = layer 0,
backward = layer 1), plus the output head. They are drawn from a
pseudo-random normal initializer at construction, so they are parameters
here. -/
structure LSTMWeightsQ where
  layer0W : List (List (List ℚ))
  layer0B : List (List ℚ)
  layer1W : List (List (List ℚ))
  layer1B : List (List ℚ)
  outW : List (List ℚ)
  outB : List ℚ

/-- Mirrors `LSTMModel.processLSTMCell` (the explicit `hiddenState` argument
of the source is unused there — the hidden state is already part of
`combined`). -/
def LSTMModel.processLSTMCell (nums : Numerics) (layerW : List (List (List ℚ)))
    (layerB : List (List ℚ)) (combined cellState : List ℚ) :
    List ℚ × List ℚ :=
  let inputGate := (LSTMModel.matrixVectorMultiply (layerW.getD 0 []) combined
    (layerB.getD 0 [])).map (LSTMModel.sigmoid nums)
  let forgetGate := (LSTMModel.matrixVectorMultiply (layerW.getD 1 []) combined
    (layerB.getD 1 [])).map (LSTMModel.sigmoid nums)
  let cellGate := (LSTMModel.matrixVectorMultiply (layerW.getD 2 []) combined
    (layerB.getD 2 [])).map (LSTMModel.tanhC nums)
  let outputGate := (LSTMModel.matrixVectorMultiply (layerW.getD 3 []) combined
    (layerB.getD 3 [])).map (LSTMModel.sigmoid nums)
  let newCellState := (List.range LSTMModel.hiddenSize).map (fun i =>
    forgetGate.getD i 0 * cellState.getD i 0 +
      inputGate.getD i 0 * cellGate.getD i 0)
  let newHiddenState := (List.range LSTMModel.hiddenSize).map (fun i =>
    outputGate.getD i 0 * LSTMModel.tanhC nums (newCellState.getD i 0))
  (newHiddenState, newCellState)

/-- Forward pass of `LSTMModel.processBidirectionalLSTM`: scan over the
sequence with layer-0 weights, collecting every hidden state. -/
def LSTMModel.forwardPass (nums : Numerics) (w : LSTMWeightsQ)
    (seqData : List (List ℚ)) : List (List ℚ) :=
  (seqData.foldl
    (fun acc input =>
      let combined := input ++ acc.2.1
      let hc := LSTMModel.processLSTMCell nums w.layer0W w.layer0B combined acc.2.2
      (acc.1 ++ [hc.1], hc.1, hc.2))
    (([] : List (List ℚ)), List.replicate LSTMModel.hiddenSize (0:ℚ),
      List.replicate LSTMModel.hiddenSize (0:ℚ))).1

/-- Backward pass of `LSTMModel.processBidirectionalLSTM`: scan over the
reversed sequence with layer-1 weights, `unshift`-collecting the states
(they feed only the unused `finalHiddenState` of the source). -/
def LSTMModel.backwardPass (nums : Numerics) (w : LSTMWeightsQ)
    (seqData : List (List ℚ)) : List (List ℚ) :=
  (seqData.reverse.foldl
    (fun acc input =>
      let combined := input ++ acc.2.1
      let hc := LSTMModel.processLSTMCell nums w.layer1W w.layer1B combined acc.2.2
      (hc.1 :: acc.1, hc.1, hc.2))
    (([] : List (List ℚ)), List.replicate LSTMModel.hiddenSize (0:ℚ),
      List.replicate LSTMModel.hiddenSize (0:ℚ))).1

/-- Mirrors `LSTMModel.softmax` (max-shifted exponentials, normalized). -/
def LSTMModel.softmax (nums : Numerics) (x : List ℚ) : List ℚ :=
  let m := listMax x
  let ex := x.map (fun v => nums.exp (v - m))
  let s := ex.sum
  ex.map (fun v => v / s)

/-- Mirrors `LSTMModel.computeAttention` with `useAttention = true`:
dot-product scores against the query, softmax weights, weighted context
vector, and the peak weight as attention score. Returns
`(weights, context, attentionScore)`. -/
def LSTMModel.computeAttention (nums : Numerics)
    (hiddenStates : List (List ℚ)) (query : List ℚ) :
    List ℚ × List ℚ × ℚ :=
  let scores := hiddenStates.map (fun hidden =>
    ((List.range hidden.length).map (fun j =>
      hidden.getD j 0 * query.getD j 0)).sum)
  let weights := LSTMModel.softmax nums scores
  let context := (List.range LSTMModel.hiddenSize).map (fun j =>
    ((List.range hiddenStates.length).map (fun i =>
      weights.getD i 0 * (hiddenStates.getD i []).getD j 0)).sum)
  (weights, context, listMax weights)

/-- Mirrors `LSTMModel.dotProduct` (the output head applied to the context
vector wrapped as a one-row matrix, exactly as the source indexes it). -/
def LSTMModel.dotProduct (weights inputs : List (List ℚ)) (bias : List ℚ) :
    List (List ℚ) :=
  (List.range weights.length).map (fun i =>
    (List.range (inputs.getD 0 []).length).map (fun j =>
      bias.getD i 0 + ((List.range inputs.length).map (fun k =>
        (weights.getD i []).getD k 0 * (inputs.getD k []).getD j 0)).sum))

/-- Mirrors `LSTMModel.denormalizeTemperature` (scale to `[25, 1200]`). -/
def LSTMModel.denormalizeTemperature (normalized : ℚ) : ℚ :=
  25 + normalized * 1175

/-- Mirrors `LSTMModel.denormalizeWearRate` (scale to `[0, 0.5]`). -/
def LSTMModel.denormalizeWearRate (normalized : ℚ) : ℚ :=
  max 0 (normalized * (1/2))

/-- Mirrors `LSTMModel.denormalizeLapsRemaining` (scale to `[0, 200]`). -/
def LSTMModel.denormalizeLapsRemaining (normalized : ℚ) : ℚ :=
  max 0 (normalized * 200)

/-- Mirrors `LSTMModel.calculateVariance`. -/
def LSTMModel.calculateVariance (values : List ℚ) : ℚ :=
  if values.length = 0 then 0
  else
    let mean := values.sum / values.length
    (values.map (fun v => (v - mean)^2)).sum / values.length

/-- Mirrors `LSTMModel.calculateAdvancedConfidence`: blend of attention peak,
short-window speed consistency and data sufficiency, clamped to
`[0.1, 0.99]`. -/
def LSTMModel.calculateAdvancedConfidence (seq : SeqInput)
    (attentionScore : ℚ) : ℚ :=
  let recentSpeeds := takeLast 5 seq.wheelSpeed
  let speedVariance := LSTMModel.calculateVariance recentSpeeds
  let speedConsistency := max 0 (1 - speedVariance / 100000)
  let dataQuality : ℚ :=
    if 5 ≤ seq.wheelSpeed.length ∧ 5 ≤ seq.brakePressure.length ∧
        5 ≤ seq.padThickness.length then 1 else 1/2
  let confidence := attentionScore * (2/5) + speedConsistency * (3/10) +
    dataQuality * (3/10)
  max (1/10) (min (99/100) confidence)

/-- Mirrors the full `LSTMPrediction` interface (with the optional
diagnostic fields). -/
structure LSTMPredictionFull where
  temperature : ℚ
  wearRate : ℚ
  predictedLapsRemaining : ℚ
  confidence : ℚ
  attentionWeights : List ℚ
  hiddenStates : List (List ℚ)
deriving DecidableEq

/-- Mirrors `LSTMModel.getDefaultPrediction`. -/
def LSTMModel.getDefaultPrediction : LSTMPredictionFull :=
  ⟨450, 1/10, 45, 1/2, [], []⟩

/-- Mirrors `LSTMModel.predict`: default on an empty sequence, otherwise
slice/pad, bidirectional pass, attention, output head, denormalization and
clamping. -/
def LSTMModel.predict (nums : Numerics) (w : LSTMWeightsQ) (seq : SeqInput) :
    LSTMPredictionFull :=
  if seq.wheelSpeed.length = 0 then LSTMModel.getDefaultPrediction
  else
    let seqData := LSTMModel.sequenceData seq
    let forwardStates := LSTMModel.forwardPass nums w seqData
    let _backwardStates := LSTMModel.backwardPass nums w seqData
    let allHiddenStates := forwardStates
    let attention := LSTMModel.computeAttention nums allHiddenStates
      (forwardStates.getLast?.getD [])
    let contextVector := attention.2.1
    let rawOutput := LSTMModel.dotProduct w.outW [contextVector] w.outB
    let temperature := LSTMModel.denormalizeTemperature
      ((rawOutput.getD 0 []).getD 0 0)
    let wearRate := LSTMModel.denormalizeWearRate
      ((rawOutput.getD 0 []).getD 1 0)
    let predictedLapsRemaining := LSTMModel.denormalizeLapsRemaining
      ((rawOutput.getD 0 []).getD 2 0)
    let confidence := LSTMModel.calculateAdvancedConfidence seq attention.2.2
    { temperature := max 25 (min 1200 temperature)
      wearRate := max 0 (min 1 wearRate)
      predictedLapsRemaining := max 0 (min 200 predictedLapsRemaining)
      confidence := max (1/10) (min (99/100) confidence)
      attentionWeights := attention.1
      hiddenStates := allHiddenStates }

/-- Mirrors the `SequencePrediction` / `TCNPredict` output shape shared by
the GRU and TCN baselines. -/
structure SequencePredictionQ where
  temperature : ℚ
  wearRate : ℚ
  predictedLapsRemaining : ℚ
  confidence : ℚ
deriving DecidableEq

/-- `GRUModel.hiddenSize`. -/
def GRUModel.hiddenSize : ℕ := 64

/-- Mirrors `GRUModel.sigmoid` (clipped at ±50). -/
def GRUModel.sigmoid (nums : Numerics) (x : ℚ) : ℚ :=
  1 / (1 + nums.exp (-(max (-50) (min 50 x))))

/-- Mirrors `GRUModel.tanh` (clipped at ±50). -/
def GRUModel.tanhC (nums : Numerics) (x : ℚ) : ℚ :=
  nums.tanh (max (-50) (min 50 x))

/-- Mirrors `GRUModel.normalize` — the sequence actually scanned by the GRU
(no padding ever happens; its length is the input length). -/
def GRUModel.normalize (seq : SeqInput) : List (List ℚ) :=
  (List.range seq.wheelSpeed.length).map (fun i =>
    [seq.wheelSpeed.getD i 0 / 3000,
     seq.brakePressure.getD i 0 / 300,
     (seq.ambientTemp.getD i 0 + 50) / 1200,
     seq.padThickness.getD i 0 / 15])

/-- Mirrors `GRUModel.mvMul` (iterates over each matrix row's length). -/
def GRUModel.mvMul (W : List (List ℚ)) (v : List ℚ) (b : List ℚ) : List ℚ :=
  (List.range W.length).map (fun i =>
    b.getD i 0 + ((List.range (W.getD i []).length).map (fun j =>
      (W.getD i []).getD j 0 * v.getD j 0)).sum)

/-- Weight tensors of a `GRUModel` instance (random at construction). -/
structure GRUWeightsQ where
  Wr : List (List ℚ)
  Wz : List (List ℚ)
  Wn : List (List ℚ)
  br : List ℚ
  bz : List ℚ
  bn : List ℚ
  Wo : List (List ℚ)
  bo : List ℚ

/-- Mirrors `GRUModel.predict`: default on an empty sequence, otherwise a
single gated recurrent scan over the normalized sequence and a linear head
with fixed confidence 0.6. -/
def GRUModel.predict (nums : Numerics) (w : GRUWeightsQ) (seq : SeqInput) :
    SequencePredictionQ :=
  if seq.wheelSpeed.length = 0 then ⟨450, 1/10, 45, 1/2⟩
  else
    let X := GRUModel.normalize seq
    let h := X.foldl
      (fun h xt =>
        let concat := xt ++ h
        let r := (GRUModel.mvMul w.Wr concat w.br).map (GRUModel.sigmoid nums)
        let z := (GRUModel.mvMul w.Wz concat w.bz).map (GRUModel.sigmoid nums)
        let concatReset := xt ++ (List.range h.length).map (fun i =>
          r.getD i 0 * h.getD i 0)
        let n := (GRUModel.mvMul w.Wn concatReset w.bn).map (GRUModel.tanhC nums)
        (List.range GRUModel.hiddenSize).map (fun i =>
          (1 - z.getD i 0) * n.getD i 0 + z.getD i 0 * h.getD i 0))
      (List.replicate GRUModel.hiddenSize (0:ℚ))
    let y := GRUModel.mvMul w.Wo h w.bo
    { temperature := 25 + max 0 (min 1 (y.getD 0 0)) * 1175
      wearRate := max 0 (min 1 (y.getD 1 0)) * (1/2)
      predictedLapsRemaining := max 0 (min 1 (y.getD 2 0)) * 200
      confidence := 3/5 }

/-- `TCNModel.channels`. -/
def TCNModel.channels : ℕ := 32

/-- `TCNModel.dilations`. -/
def TCNModel.dilations : List ℕ := [1, 2, 4, 8]

/-- Mirrors `TCNModel.normalize` — the sequence the TCN collapses into its
single-channel signal (no padding ever happens). -/
def TCNModel.normalize (seq : SeqInput) : List (List ℚ) :=
  (List.range seq.wheelSpeed.length).map (fun i =>
    [seq.wheelSpeed.getD i 0 / 3000,
     seq.brakePressure.getD i 0 / 300,
     (seq.ambientTemp.getD i 0 + 50) / 1200,
     seq.padThickness.getD i 0 / 15])

/-- Mirrors `TCNModel.conv1D` (causal dilated convolution with ReLU). -/
def TCNModel.conv1D (signal kernel : List ℚ) (dilation : ℕ) : List ℚ :=
  (List.range signal.length).map (fun t =>
    max 0 (((List.range kernel.length).map (fun i =>
      if i * dilation ≤ t then kernel.getD i 0 * signal.getD (t - i * dilation) 0
      else 0)).sum))

/-- Weight tensors of a `TCNModel` instance (random kernels, zero head
biases at construction). -/
structure TCNWeightsQ where
  convs : List (List (List ℚ))
  headW : List (List ℚ)
  headB : List ℚ

/-- Mirrors `TCNModel.predict`: default on an empty sequence, otherwise
feature collapse, dilated convolution stack with scaled residuals, global
average pooling and a linear head with fixed confidence 0.55. -/
def TCNModel.predict (w : TCNWeightsQ) (seq : SeqInput) : SequencePredictionQ :=
  if seq.wheelSpeed.length = 0 then ⟨450, 1/10, 45, 1/2⟩
  else
    let X := TCNModel.normalize seq
    let sig := X.map (fun v =>
      (v.getD 0 0 + v.getD 1 0 + v.getD 2 0 + v.getD 3 0) / 4)
    let features := (List.range TCNModel.dilations.length).foldl
      (fun features l =>
        let dilation := TCNModel.dilations.getD l 0
        let convl := w.convs.getD l []
        let convolved := (List.range TCNModel.channels).map (fun c =>
          TCNModel.conv1D (features.getD c []) (convl.getD (c % convl.length) [])
            dilation)
        (List.range TCNModel.channels).map (fun c =>
          (List.range sig.length).map (fun t =>
            max 0 ((convolved.getD c []).getD t 0 + sig.getD t 0 * (1/10)))))
      (List.replicate TCNModel.channels sig)
    let pooled := (List.range TCNModel.channels).map (fun c =>
      (features.getD c []).sum / ((features.getD c []).length : ℚ))
    let y := (List.range 3).map (fun o =>
      w.headB.getD o 0 + ((List.range pooled.length).map (fun i =>
        (w.headW.getD o []).getD (i % (w.headW.getD o []).length) 0 *
          pooled.getD i 0)).sum)
    { temperature := 25 + max 0 (min 1 (y.getD 0 0)) * 1175
      wearRate := max 0 (min 1 (y.getD 1 0)) * (1/2)
      predictedLapsRemaining := max 0 (min 1 (y.getD 2 0)) * 200
      confidence := 11/20 }

/-- C4: each of the three sequence predictors returns exactly the documented
default `{temperature 450, wearRate 0.1, lapsRemaining 45, confidence 0.5}`
on an empty history sequence (the guard fires before any numeric processing,
so no exception can arise), for every choice of weights and numeric
primitives. -/
theorem c4_empty_sequence_default (seq : SeqInput) (h : seq.wheelSpeed = [])
    (nums : Numerics) (wl : LSTMWeightsQ) (wg : GRUWeightsQ) (wt : TCNWeightsQ) :
    (LSTMModel.predict nums wl seq).temperature = 450 ∧
    (LSTMModel.predict nums wl seq).wearRate = 1/10 ∧
    (LSTMModel.predict nums wl seq).predictedLapsRemaining = 45 ∧
    (LSTMModel.predict nums wl seq).confidence = 1/2 ∧
    GRUModel.predict nums wg seq = ⟨450, 1/10, 45, 1/2⟩ ∧
    TCNModel.predict wt seq = ⟨450, 1/10, 45, 1/2⟩ := by
  have h0 : seq.wheelSpeed.length = 0 := by rw [h]; rfl
  rw [LSTMModel.predict, GRUModel.predict, TCNModel.predict,
    if_pos h0, if_pos h0, if_pos h0]
  exact ⟨rfl, rfl, rfl, rfl, rfl, rfl⟩

/-- Trivial numeric oracles for witnesses. -/
def numerics0 : Numerics := ⟨fun _ => 1, fun _ => 0⟩

/-- Empty LSTM weight tensors for witnesses. -/
def lstmWeights0 : LSTMWeightsQ := ⟨[], [], [], [], [], []⟩

/-- Empty GRU weight tensors for witnesses. -/
def gruWeights0 : GRUWeightsQ := ⟨[], [], [], [], [], [], [], []⟩

/-- Empty TCN weight tensors for witnesses. -/
def tcnWeights0 : TCNWeightsQ := ⟨[], [], []⟩

/-- Witness for C4 at the concrete empty sequence. -/
theorem c4_empty_sequence_default_witness :
    (LSTMModel.predict numerics0 lstmWeights0 emptySeq).temperature = 450 ∧
    (LSTMModel.predict numerics0 lstmWeights0 emptySeq).wearRate = 1/10 ∧
    (LSTMModel.predict numerics0 lstmWeights0 emptySeq).predictedLapsRemaining = 45 ∧
    (LSTMModel.predict numerics0 lstmWeights0 emptySeq).confidence = 1/2 ∧
    GRUModel.predict numerics0 gruWeights0 emptySeq = ⟨450, 1/10, 45, 1/2⟩ ∧
    TCNModel.predict tcnWeights0 emptySeq = ⟨450, 1/10, 45, 1/2⟩ :=
  c4_empty_sequence_default emptySeq rfl numerics0 lstmWeights0 gruWeights0
    tcnWeights0

/-- A concrete history sequence of length 5 for the C6 counterexample. -/
def c6cexSeq : SeqInput :=
  ⟨[1500, 1500, 1500, 1500, 1500], [100, 100, 100, 100, 100],
   [25, 25, 25, 25, 25], [10, 10, 10, 10, 10], [0, 1, 2, 3, 4]⟩

/-- C6 counterexample: at length 5 (short of the 10-sample window) none of
the three predictors pads — the LSTM's processed sequence and the sequences
scanned by the GRU and TCN all still have length 5, not 10. -/
theorem c6_no_padding_cex :
    (LSTMModel.sequenceData c6cexSeq).length = 5 ∧
    ¬ (LSTMModel.sequenceData c6cexSeq).length = 10 ∧
    (GRUModel.normalize c6cexSeq).length = 5 ∧
    (TCNModel.normalize c6cexSeq).length = 5 := by
  have hlen : (LSTMModel.normalizeInputs c6cexSeq).length = 5 := by
    simp [LSTMModel.normalizeInputs, c6cexSeq]
  have hslice : takeLast LSTMModel.sequenceLength
      (LSTMModel.normalizeInputs c6cexSeq) =
      LSTMModel.normalizeInputs c6cexSeq := by
    unfold takeLast
    rw [hlen]
    rfl
  have hseq : LSTMModel.sequenceData c6cexSeq =
      LSTMModel.normalizeInputs c6cexSeq := by
    unfold LSTMModel.sequenceData
    rw [hslice]
    dsimp only
    rw [hlen]
    norm_num
  refine ⟨by rw [hseq, hlen], by rw [hseq, hlen]; norm_num, ?_, ?_⟩
  · simp [GRUModel.normalize, c6cexSeq]
  · simp [TCNModel.normalize, c6cexSeq]

/-- `slice(-n)` of a list no longer than `n` is the list itself. -/
lemma takeLast_of_le {α : Type} (n : ℕ) (l : List α) (h : l.length ≤ n) :
    takeLast n l = l := by
  unfold takeLast
  rw [Nat.sub_eq_zero_of_le h, List.drop_zero]

/-- Length of the LSTM's normalized input sequence. -/
lemma normalizeInputs_length (seq : SeqInput) :
    (LSTMModel.normalizeInputs seq).length = seq.wheelSpeed.length := by
  simp [LSTMModel.normalizeInputs]

/-- C6 (amended): only the LSTM predictor pads, and only when fewer than 3
samples are available — it then left-pads to the 10-sample window by
repeating the MOST RECENT sample; for 3 to 10 samples the LSTM processes the
sequence at its own length, and the GRU and TCN predictors always process
the sequence at its own length (they never pad). -/
theorem c6_padding_behaviour (seq : SeqInput) (n : ℕ)
    (hn : seq.wheelSpeed.length = n) (h1 : 1 ≤ n) (h10 : n ≤ 10) :
    (n ≤ 2 → LSTMModel.sequenceData seq =
      List.replicate (10 - n)
        ((LSTMModel.normalizeInputs seq).getLast?.getD
          LSTMModel.defaultLastInput) ++ LSTMModel.normalizeInputs seq) ∧
    (3 ≤ n → LSTMModel.sequenceData seq = LSTMModel.normalizeInputs seq) ∧
    (GRUModel.normalize seq).length = n ∧
    (TCNModel.normalize seq).length = n := by
  have hlen : (LSTMModel.normalizeInputs seq).length = n := by
    rw [normalizeInputs_length, hn]
  have hslice : takeLast LSTMModel.sequenceLength
      (LSTMModel.normalizeInputs seq) = LSTMModel.normalizeInputs seq :=
    takeLast_of_le _ _ (by rw [hlen]; exact h10)
  refine ⟨?_, ?_, by simp [GRUModel.normalize, hn], by simp [TCNModel.normalize, hn]⟩
  · intro h2
    unfold LSTMModel.sequenceData
    rw [hslice]
    dsimp only
    rw [hlen, if_pos (by omega)]
    rfl
  · intro h3
    unfold LSTMModel.sequenceData
    rw [hslice]
    dsimp only
    rw [hlen, if_neg (by omega)]

/-- Witness for the amended C6 at a concrete length-2 sequence: the LSTM
pads it to the window with the most recent sample; GRU and TCN keep
length 2. -/
theorem c6_padding_behaviour_witness :
    ((2:ℕ) ≤ 2 → LSTMModel.sequenceData ⟨[1500, 1800], [100, 120], [25, 25],
        [10, 10], [0, 1]⟩ =
      List.replicate (10 - 2)
        ((LSTMModel.normalizeInputs ⟨[1500, 1800], [100, 120], [25, 25],
            [10, 10], [0, 1]⟩).getLast?.getD LSTMModel.defaultLastInput) ++
        LSTMModel.normalizeInputs ⟨[1500, 1800], [100, 120], [25, 25],
          [10, 10], [0, 1]⟩) ∧
    ((3:ℕ) ≤ 2 → LSTMModel.sequenceData ⟨[1500, 1800], [100, 120], [25, 25],
        [10, 10], [0, 1]⟩ =
      LSTMModel.normalizeInputs ⟨[1500, 1800], [100, 120], [25, 25],
        [10, 10], [0, 1]⟩) ∧
    (GRUModel.normalize ⟨[1500, 1800], [100, 120], [25, 25],
      [10, 10], [0, 1]⟩).length = 2 ∧
    (TCNModel.normalize ⟨[1500, 1800], [100, 120], [25, 25],
      [10, 10], [0, 1]⟩).length = 2 :=
  c6_padding_behaviour ⟨[1500, 1800], [100, 120], [25, 25], [10, 10], [0, 1]⟩
    2 rfl (by norm_num) (by norm_num)

/-- The per-scenario relative temperature errors accumulated by
`ModelEvaluator.evaluate*Model`: `|predicted - actual| / actual` over the
`(predicted, actual)` pairs of the scenario run. -/
def ModelEvaluator.relativeErrors (samples : List (ℚ × ℚ)) : List ℚ :=
  samples.map (fun s => |s.1 - s.2| / s.2)

/-- The evaluator's `meanError` (reported as `meanAbsoluteError`):
`totalError / n` over the relative errors. -/
def ModelEvaluator.meanAbsoluteError (samples : List (ℚ × ℚ)) : ℚ :=
  (ModelEvaluator.relativeErrors samples).sum / samples.length

/-- The evaluator's `totalSquaredError / n` — the quantity under the square
root in its `rmse`. -/
def ModelEvaluator.meanSquaredError (samples : List (ℚ × ℚ)) : ℚ :=
  ((ModelEvaluator.relativeErrors samples).map (fun e => e * e)).sum /
    samples.length

/-- Mirrors `ModelEvaluator.computeR2`: `1 - SS_res / SS_tot` against the
mean target, with 0 returned on an empty list or a zero total sum of
squares. -/
def ModelEvaluator.computeR2 (yTrue yPred : List ℚ) : ℚ :=
  if yTrue.length = 0 then 0
  else
    let mean := yTrue.sum / yTrue.length
    let ssTot := (yTrue.map (fun yi => (yi - mean)^2)).sum
    let ssRes := ((yTrue.zip yPred).map (fun p => (p.1 - p.2)^2)).sum
    if ssTot = 0 then 0 else 1 - ssRes / ssTot

/-- A list of squares has nonnegative sum. -/
lemma sum_map_sq_nonneg {α : Type} (l : List α) (f : α → ℚ) :
    0 ≤ (l.map (fun x => (f x)^2)).sum := by
  apply List.sum_nonneg
  intro x hx
  obtain ⟨a, _, rfl⟩ := List.mem_map.mp hx
  exact sq_nonneg _

/-- Cauchy–Schwarz for lists: the square of a sum is at most the length
times the sum of squares. -/
lemma sq_sum_le_length_mul_sum_sq (l : List ℚ) :
    l.sum ^ 2 ≤ (l.length : ℚ) * (l.map (fun x => x^2)).sum := by
  induction l with
  | nil => norm_num
  | cons a t ih =>
    have hq : 0 ≤ (t.map (fun x => x^2)).sum := sum_map_sq_nonneg t (fun x => x)
    have hn : (0:ℚ) ≤ t.length := Nat.cast_nonneg _
    rw [List.sum_cons, List.map_cons, List.sum_cons, List.length_cons]
    push_cast
    by_cases ht : t = []
    · subst ht
      simp
    · have hn1 : (1:ℚ) ≤ t.length := by
        have : 1 ≤ t.length := Nat.one_le_iff_ne_zero.mpr
          (fun h => ht (List.length_eq_zero.mp h))
        exact_mod_cast this
      have h1 : 0 ≤ ((t.length:ℚ) * a - t.sum)^2 := sq_nonneg _
      have h2 : (1 + (t.length:ℚ)) * t.sum^2 ≤
          (1 + (t.length:ℚ)) * ((t.length:ℚ) * (t.map (fun x => x^2)).sum) :=
        mul_le_mul_of_nonneg_left ih (by linarith)
      have h3 : 0 ≤ (t.length:ℚ) *
          (((t.length:ℚ) + 1) * (a^2 + (t.map (fun x => x^2)).sum) -
            (a + t.sum)^2) := by nlinarith [h1, h2]
      have h4 : 0 ≤ ((t.length:ℚ) + 1) * (a^2 + (t.map (fun x => x^2)).sum) -
          (a + t.sum)^2 := by
        rcases (mul_nonneg_iff_of_pos_left (by linarith : (0:ℚ) < t.length)).mp h3
          with h
        exact h
      linarith

/-- The squared mean absolute (relative) error is at most the mean squared
(relative) error. -/
lemma mae_sq_le_mse (samples : List (ℚ × ℚ)) :
    (ModelEvaluator.meanAbsoluteError samples)^2 ≤
      ModelEvaluator.meanSquaredError samples := by
  unfold ModelEvaluator.meanAbsoluteError ModelEvaluator.meanSquaredError
  rcases Nat.eq_zero_or_pos samples.length with h0 | hpos
  · rw [h0]
    norm_num
  · have hn : (0:ℚ) < samples.length := by exact_mod_cast hpos
    have hlen : ((ModelEvaluator.relativeErrors samples).length : ℚ) =
        (samples.length : ℚ) := by
      norm_num [ModelEvaluator.relativeErrors]
    have hcs := sq_sum_le_length_mul_sum_sq (ModelEvaluator.relativeErrors samples)
    rw [hlen] at hcs
    rw [div_pow, div_le_div_iff₀ (by positivity) hn]
    have hsq : ((ModelEvaluator.relativeErrors samples).map (fun x => x^2)) =
        ((ModelEvaluator.relativeErrors samples).map (fun e => e * e)) := by
      simp [sq]
    rw [hsq] at hcs
    nlinarith [hcs, hn.le]

/-- C8: over exact real arithmetic, the evaluator's reported
`meanAbsoluteError` is nonnegative, its `rootMeanSquareError`
(square root of the mean squared relative error) dominates the
mean absolute error, and `computeR2` never exceeds 1. -/
theorem c8_metric_inequalities (samples : List (ℚ × ℚ)) (_hne : samples ≠ [])
    (hpos : ∀ p ∈ samples, 0 < p.2) (yTrue yPred : List ℚ) :
    0 ≤ ModelEvaluator.meanAbsoluteError samples ∧
    ((ModelEvaluator.meanAbsoluteError samples : ℚ) : ℝ) ≤
      Real.sqrt ((ModelEvaluator.meanSquaredError samples : ℚ) : ℝ) ∧
    ModelEvaluator.computeR2 yTrue yPred ≤ 1 := by
  have hmae0 : 0 ≤ ModelEvaluator.meanAbsoluteError samples := by
    unfold ModelEvaluator.meanAbsoluteError
    apply div_nonneg _ (Nat.cast_nonneg _)
    apply List.sum_nonneg
    intro x hx
    obtain ⟨p, hp, rfl⟩ := List.mem_map.mp hx
    exact div_nonneg (abs_nonneg _) (le_of_lt (hpos p hp))
  refine ⟨hmae0, ?_, ?_⟩
  · have hsq : ((ModelEvaluator.meanAbsoluteError samples : ℚ) : ℝ)^2 ≤
        ((ModelEvaluator.meanSquaredError samples : ℚ) : ℝ) := by
      exact_mod_cast mae_sq_le_mse samples
    calc ((ModelEvaluator.meanAbsoluteError samples : ℚ) : ℝ)
        = Real.sqrt (((ModelEvaluator.meanAbsoluteError samples : ℚ) : ℝ)^2) :=
          (Real.sqrt_sq (by exact_mod_cast hmae0)).symm
      _ ≤ Real.sqrt ((ModelEvaluator.meanSquaredError samples : ℚ) : ℝ) :=
          Real.sqrt_le_sqrt hsq
  · unfold ModelEvaluator.computeR2
    by_cases h0 : yTrue.length = 0
    · rw [if_pos h0]
      norm_num
    · rw [if_neg h0]
      dsimp only
      by_cases ht : (yTrue.map (fun yi => (yi - yTrue.sum / yTrue.length)^2)).sum = 0
      · rw [if_pos ht]
        norm_num
      · rw [if_neg ht]
        have htot : 0 < (yTrue.map (fun yi =>
            (yi - yTrue.sum / yTrue.length)^2)).sum :=
          lt_of_le_of_ne (sum_map_sq_nonneg yTrue _) (Ne.symm ht)
        have hres : 0 ≤ ((yTrue.zip yPred).map (fun p => (p.1 - p.2)^2)).sum :=
          sum_map_sq_nonneg _ _
        have : 0 ≤ ((yTrue.zip yPred).map (fun p => (p.1 - p.2)^2)).sum /
            (yTrue.map (fun yi => (yi - yTrue.sum / yTrue.length)^2)).sum :=
          div_nonneg hres htot.le
        linarith

/-- Witness for C8 at a concrete two-scenario sample. -/
theorem c8_metric_inequalities_witness :
    0 ≤ ModelEvaluator.meanAbsoluteError [(450, 500), (300, 250)] ∧
    ((ModelEvaluator.meanAbsoluteError [(450, 500), (300, 250)] : ℚ) : ℝ) ≤
      Real.sqrt ((ModelEvaluator.meanSquaredError [(450, 500), (300, 250)] : ℚ) : ℝ) ∧
    ModelEvaluator.computeR2 [500, 250] [450, 300] ≤ 1 :=
  c8_metric_inequalities [(450, 500), (300, 250)] (List.cons_ne_nil _ _)
    (by
      intro p hp
      simp only [List.mem_cons, List.not_mem_nil, or_false] at hp
      rcases hp with h | h <;> subst h <;> norm_num)
    [500, 250] [450, 300]

end BrakeF1
